import Mathlib

/-!
Shallow embedding of the core of `fastapi-clean-architecture`:
the error taxonomy (`src/app/core/exceptions.py`), the boundary error
handlers (`src/app/core/errors/handlers.py`), the `User` entity
(`src/app/domains/user/entities/user.py`), the repository adapter
(`src/app/domains/user/infrastructure/database/user_repository_impl.py`),
the use cases (`src/app/domains/user/use_cases/*.py`), the user router
(`src/app/domains/user/presentation/v1/router.py`) and the settings
reload watcher (`src/app/core/config.py`).

Strings are modelled by `String`, machine timestamps and UUID values by
opaque strings, dict-valued `details` by association lists, and the
database by a list of rows in the adapter's stable order.
-/

set_option autoImplicit false

/-- Exception classes of the application.  The taxonomy classes are those
declared in `app/core/exceptions.py`; `userNotFoundError` is declared in
`app/domains/user/use_cases/get_user.py` as a subclass of
`ResourceNotFoundError`, `userAlreadyExistsError` in
`app/domains/user/use_cases/create_user.py` as a subclass of
`ResourceConflictError`.  `valueErrorClass` stands for Python's builtin
`ValueError`, which is outside the `AppError` taxonomy. -/
inductive ExcClass where
  | appError
  | resourceNotFoundError
  | resourceConflictError
  | domainError
  | validationError
  | businessRuleError
  | invalidOperationError
  | authenticationError
  | authorizationError
  | userNotFoundError
  | userAlreadyExistsError
  | valueErrorClass
  deriving DecidableEq, Repr, Fintype

/-- Method resolution order of each class, restricted to the classes of the
model (Python would append `Exception`, `BaseException`, `object`; none of
those is ever tested against by the code under study). -/
def mro : ExcClass → List ExcClass
  | .appError => [.appError]
  | .resourceNotFoundError => [.resourceNotFoundError, .appError]
  | .resourceConflictError => [.resourceConflictError, .appError]
  | .domainError => [.domainError, .appError]
  | .validationError => [.validationError, .domainError, .appError]
  | .businessRuleError => [.businessRuleError, .domainError, .appError]
  | .invalidOperationError => [.invalidOperationError, .domainError, .appError]
  | .authenticationError => [.authenticationError, .appError]
  | .authorizationError => [.authorizationError, .appError]
  | .userNotFoundError => [.userNotFoundError, .resourceNotFoundError, .appError]
  | .userAlreadyExistsError => [.userAlreadyExistsError, .resourceConflictError, .appError]
  | .valueErrorClass => [.valueErrorClass]

/-- Python's `isinstance(exc, cls)` on the classes of the model. -/
def isinstance (c d : ExcClass) : Bool :=
  (mro c).contains d

/-- Python `type(exc).__name__` for each class of the model. -/
def className : ExcClass → String
  | .appError => "AppError"
  | .resourceNotFoundError => "ResourceNotFoundError"
  | .resourceConflictError => "ResourceConflictError"
  | .domainError => "DomainError"
  | .validationError => "ValidationError"
  | .businessRuleError => "BusinessRuleError"
  | .invalidOperationError => "InvalidOperationError"
  | .authenticationError => "AuthenticationError"
  | .authorizationError => "AuthorizationError"
  | .userNotFoundError => "UserNotFoundError"
  | .userAlreadyExistsError => "UserAlreadyExistsError"
  | .valueErrorClass => "ValueError"

/-- Effect of `re.sub(r"(?<!^)(?=[A-Z])", "_", s)` on every character after
the first: an underscore is inserted before each capital letter. -/
def underscoreBeforeCaps : List Char → List Char
  | [] => []
  | c :: cs =>
    if c.isUpper then '_' :: c :: underscoreBeforeCaps cs
    else c :: underscoreBeforeCaps cs

/-- Effect of `re.sub(r"(?<!^)(?=[A-Z])", "_", s)`: the lookbehind `(?<!^)`
exempts only the very first position of the string. -/
def defaultCodeChars : List Char → List Char
  | [] => []
  | c :: cs => c :: underscoreBeforeCaps cs

/-- `AppError._default_code` from `app/core/exceptions.py`:
`re.sub(r"(?<!^)(?=[A-Z])", "_", class_name).upper()`. -/
def defaultCode (s : String) : String :=
  String.mk ((defaultCodeChars s.data).map Char.toUpper)

/-- An exception instance: class, `message`, `code` and `details` exactly as
stored by `AppError.__init__`. -/
structure AppErrorData where
  cls : ExcClass
  message : String
  code : String
  details : List (String × String)
  deriving DecidableEq, Repr

/-- `AppError.__init__`: `self.code = code or self._default_code()` (an empty
string is falsy in Python) and `self.details = details or {}`. -/
def mkAppError (cls : ExcClass) (message : String) (code : Option String)
    (details : Option (List (String × String))) : AppErrorData :=
  let defCode := defaultCode (className cls)
  let c := match code with
    | some s => if s = "" then defCode else s
    | none => defCode
  let d := match details with
    | some l => l
    | none => []
  ⟨cls, message, c, d⟩

/-- The `status_map` dict of `_get_status_code_for_exception` in
`app/core/errors/handlers.py`, in declared (insertion) order. -/
def statusMapTable : List (ExcClass × Nat) :=
  [(.resourceNotFoundError, 404),
   (.resourceConflictError, 409),
   (.domainError, 400),
   (.authenticationError, 401),
   (.authorizationError, 403)]

/-- The `for exc_class, code in status_map.items()` loop: first `isinstance`
match wins, exhaustion returns `HTTP_500_INTERNAL_SERVER_ERROR`. -/
def statusLookup (c : ExcClass) : List (ExcClass × Nat) → Nat
  | [] => 500
  | (d, s) :: rest => if isinstance c d then s else statusLookup c rest

/-- `_get_status_code_for_exception` from `app/core/errors/handlers.py`. -/
def getStatusCodeForException (c : ExcClass) : Nat :=
  statusLookup c statusMapTable

/-- Characters stripped by Python's `str.strip()` with no argument (ASCII
whitespace; the entity's names are ordinary text). -/
def pyWhitespace (c : Char) : Bool :=
  c = ' ' || c = '\t' || c = '\n' || c = '\x0d' || c = '\x0b' || c = '\x0c'

/-- Python `str.strip(chars)`: remove leading and trailing characters drawn
from the given set. -/
def stripChars (cs : List Char) (l : List Char) : List Char :=
  ((l.dropWhile (fun c => cs.contains c)).reverse.dropWhile
    (fun c => cs.contains c)).reverse

/-- Python `str.strip()` on a character list. -/
def pyStrip (l : List Char) : List Char :=
  ((l.dropWhile pyWhitespace).reverse.dropWhile pyWhitespace).reverse

/-- The `User` dataclass of `app/domains/user/entities/user.py`.  `id` holds
the canonical string form of the UUID, `createdAt` the opaque creation
timestamp. -/
structure UserEntity where
  email : String
  name : String
  id : String
  isActive : Bool
  createdAt : String
  updatedAt : Option String
  deriving DecidableEq, Repr

/-- `User._validate_email`: `if not self.email or "@" not in self.email`,
raising `ValidationError` with code `INVALID_EMAIL_FORMAT` and the email in
`details`. -/
def validateEmail (email : String) : Option AppErrorData :=
  if email = "" || !(email.data.contains '@') then
    some (mkAppError .validationError "Invalid email format"
      (some "INVALID_EMAIL_FORMAT") (some [("email", email)]))
  else none

/-- `User._validate_name`: `if not self.name or len(self.name.strip()) == 0`,
raising `ValidationError` with code `INVALID_NAME_FORMAT` and the name in
`details`. -/
def validateName (name : String) : Option AppErrorData :=
  if name = "" || pyStrip name.data = [] then
    some (mkAppError .validationError "Name cannot be empty"
      (some "INVALID_NAME_FORMAT") (some [("name", name)]))
  else none

/-- `User.__post_init__` run on the dataclass constructor's arguments:
email is validated first, then name; on success the defaulted fields are
`is_active = True` and `updated_at = None`, while `id` and `created_at`
are generated (passed here as explicit parameters). -/
def mkUserEntity (email name id createdAt : String) :
    Except AppErrorData UserEntity :=
  match validateEmail email with
  | some e => .error e
  | none =>
    match validateName name with
    | some e => .error e
    | none => .ok ⟨email, name, id, true, createdAt, none⟩

/-- Remove every occurrence of a non-empty pattern, scanning left to right:
Python `str.replace(pat, "")`.  The fuel argument (the original length)
makes the recursion structural; each step consumes at least one character. -/
def removeAllAux (pat : List Char) : Nat → List Char → List Char
  | 0, l => l
  | _ + 1, [] => []
  | fuel + 1, c :: cs =>
    if pat.isPrefixOf (c :: cs) && !pat.isEmpty then
      removeAllAux pat fuel ((c :: cs).drop pat.length)
    else c :: removeAllAux pat fuel cs

/-- Python `str.replace(pat, "")`. -/
def removeAll (pat l : List Char) : List Char :=
  removeAllAux pat l.length l

/-- Hexadecimal digits accepted by `int(hex, 16)` for the UUID body. -/
def isHexDigitChar (c : Char) : Bool :=
  c.isDigit || ('a' ≤ c && c ≤ 'f') || ('A' ≤ c && c ≤ 'F')

/-- Canonical `str(uuid)` rendering: 8-4-4-4-12 lowercase hex groups. -/
def uuidFormat (h : List Char) : String :=
  String.mk (h.take 8 ++ '-' :: (h.drop 8).take 4 ++ '-' :: (h.drop 12).take 4
    ++ '-' :: (h.drop 16).take 4 ++ '-' :: h.drop 20)

/-- `uuid.UUID(s)` from the standard library, as used by the use cases:
drop every occurrence of `urn:` and `uuid:`, strip surrounding braces,
drop hyphens, then demand exactly 32 hexadecimal digits.  The result is
the canonical string form (`str` of the UUID). -/
def parseUUID (s : String) : Option String :=
  let t := removeAll "uuid:".data (removeAll "urn:".data s.data)
  let u := stripChars ['{', '}'] t
  let h := u.filter (fun c => c != '-')
  if h.length == 32 && h.all isHexDigitChar then
    some (uuidFormat (h.map Char.toLower))
  else none

/-- Database state seen through the adapter: the user rows in the adapter's
stable order. -/
abbrev RepoState := List UserEntity

/-- `SQLAlchemyUserRepository.get_by_id`: `select(UserModel).where
(UserModel.id == str(user_id))`, first row or `None`. -/
def repoGetById (state : RepoState) (uuidStr : String) : Option UserEntity :=
  state.find? (fun u => u.id == uuidStr)

/-- `SQLAlchemyUserRepository.get_all`: `select(UserModel).offset(skip)
.limit(limit)` over the stable row order. -/
def repoGetAll (state : RepoState) (skip limit : Nat) : List UserEntity :=
  (state.drop skip).take limit

/-- A failure escaping the adapter: either an `AppError` from the taxonomy or
a builtin `ValueError`. -/
inductive PyError where
  | appErr (e : AppErrorData)
  | valueError (message : String)
  deriving DecidableEq, Repr

/-- Field assignment performed by `SQLAlchemyUserRepository.update` on the
found row: `email`, `name`, `is_active` and `updated_at` are overwritten,
`id` and `created_at` are left as stored. -/
def applyRowUpdate (old new : UserEntity) : UserEntity :=
  ⟨new.email, new.name, old.id, new.isActive, old.createdAt, new.updatedAt⟩

/-- `SQLAlchemyUserRepository.update`: select by `str(user.id)`; a missing
row raises `ValueError(f"User with ID {user.id} not found")`; otherwise the
row is updated, committed and returned as an entity. -/
def repoUpdate (state : RepoState) (user : UserEntity) :
    Except PyError (RepoState × UserEntity) :=
  match repoGetById state user.id with
  | none => .error (.valueError ("User with ID " ++ user.id ++ " not found"))
  | some old =>
    let updated := applyRowUpdate old user
    .ok (state.map (fun u => if u.id == user.id then updated else u), updated)

/-- `SQLAlchemyUserRepository.delete`: select by id; `False` when no row is
found, otherwise the row is deleted and `True` returned. -/
def repoDelete (state : RepoState) (uuidStr : String) : RepoState × Bool :=
  match repoGetById state uuidStr with
  | none => (state, false)
  | some _ => (state.eraseP (fun u => u.id == uuidStr), true)

/-- Classifies a `PyError` as a `ResourceNotFoundError` (by `isinstance`). -/
def isResourceNotFound : PyError → Bool
  | .appErr e => isinstance e.cls .resourceNotFoundError
  | .valueError _ => false

/-- `GetUserOutput` dataclass from `app/domains/user/use_cases/get_user.py`:
`id=str(user.id)`, `created_at=user.created_at.isoformat()` (timestamps are
opaque strings in the model). -/
structure GetUserOutput where
  id : String
  email : String
  name : String
  isActive : Bool
  createdAt : String
  deriving DecidableEq, Repr

/-- Projection of an entity into `GetUserOutput`, as written inline in both
`GetUserByIdUseCase.execute` and `GetAllUsersUseCase.execute`. -/
def toGetUserOutput (u : UserEntity) : GetUserOutput :=
  ⟨u.id, u.email, u.name, u.isActive, u.createdAt⟩

/-- `GetUserByIdUseCase.execute`: `UUID(user_id)` failing raises
`DomainError(f"Invalid user ID format: {user_id}")` (no explicit code, no
details); a `None` lookup raises
`UserNotFoundError(f"User with ID {user_id} not found")` (no explicit code,
no details); otherwise the output projection is returned. -/
def getUserById (state : RepoState) (userId : String) :
    Except AppErrorData GetUserOutput :=
  match parseUUID userId with
  | none =>
    .error (mkAppError .domainError ("Invalid user ID format: " ++ userId)
      none none)
  | some uuid =>
    match repoGetById state uuid with
    | none =>
      .error (mkAppError .userNotFoundError
        ("User with ID " ++ userId ++ " not found") none none)
    | some user => .ok (toGetUserOutput user)

/-- `GetAllUsersUseCase.execute`: delegate to the port and project each
entity. -/
def getAllUsers (state : RepoState) (skip limit : Nat) : List GetUserOutput :=
  (repoGetAll state skip limit).map toGetUserOutput

/-- `DeleteUserUseCase.execute` from
`app/domains/user/use_cases/delete_user.py`.  The module raises
`DomainException` on a malformed id; that class is absent from `src`
(`app/core/exceptions.py` names the taxonomy class `DomainError`).
Modelled from the spec: §4.3 specifies the same identifier parsing as
GetUserById, failing with a `DomainError`, so the raise is embedded as the
taxonomy's `DomainError` with the same message format.  The rest follows the
source: `delete(uuid)` returning `False` raises
`UserNotFoundError(f"User with ID {user_id} not found")`, and `True` is
returned on success (the resulting repository state is paired in). -/
def deleteUser (state : RepoState) (userId : String) :
    Except AppErrorData (RepoState × Bool) :=
  match parseUUID userId with
  | none =>
    .error (mkAppError .domainError ("Invalid user ID format: " ++ userId)
      none none)
  | some uuid =>
    let res := repoDelete state uuid
    if res.2 then .ok (res.1, true)
    else
      .error (mkAppError .userNotFoundError
        ("User with ID " ++ userId ++ " not found") none none)

/-- `UserListResponse` from `app/domains/user/presentation/v1/schemas.py`
(the `UserDetailResponse` wrapper repeats the `GetUserOutput` fields
verbatim, so the output type is reused here). -/
structure UserListResponse where
  users : List GetUserOutput
  total : Nat
  deriving DecidableEq, Repr

/-- `get_users` endpoint from `app/domains/user/presentation/v1/router.py`:
`users = await use_case.execute(skip=skip, limit=limit)` followed by
`UserListResponse(users=[...], total=len(users))`. -/
def getUsersEndpoint (state : RepoState) (skip limit : Nat) :
    UserListResponse :=
  let users := getAllUsers state skip limit
  ⟨users, users.length⟩

/-- Error envelope built by `app_exception_handler` in
`app/core/errors/handlers.py` (the `timestamp` and `request_id` fields are
environment inputs — wall clock and inbound header — and are outside the
model). -/
structure ErrorEnvelope where
  code : String
  message : String
  details : Option (List (String × String))
  deriving DecidableEq, Repr

/-- `app_exception_handler`: status from `_get_status_code_for_exception`,
body with `"details": exc.details if exc.details else None` (an empty dict
is falsy in Python). -/
def appExceptionHandler (e : AppErrorData) : Nat × ErrorEnvelope :=
  (getStatusCodeForException e.cls,
   ⟨e.code, e.message, if e.details.isEmpty then none else some e.details⟩)

/-- One read from `awatch` inside `SettingsReloader._watch_loop`: a batch of
change events (`envTouched` records whether the watched `.env` file is among
them), a read failure, or a task cancellation delivered at the read point. -/
inductive WatchEvent where
  | changes (envTouched : Bool)
  | readError
  | cancel
  deriving DecidableEq, Repr

/-- Observable outcome of the watch loop: `finished reloads loggedErrors`
when the coroutine returns (stream exhausted, or an error was logged by the
`except Exception` arm and the function fell through), `cancelled reloads`
when `asyncio.CancelledError` was re-raised. -/
inductive WatchOutcome where
  | finished (reloads : Nat) (loggedErrors : Nat)
  | cancelled (reloads : Nat)
  deriving DecidableEq, Repr

/-- `SettingsReloader._watch_loop`: the whole `async for` sits inside one
`try`; a batch naming the `.env` file clears the settings cache (counted as
a reload); `except asyncio.CancelledError: raise` re-raises a cancellation;
`except Exception: log` catches any other read error OUTSIDE the loop, so
the function logs once and returns — the remaining events are never read. -/
def watchLoop (reloads : Nat) : List WatchEvent → WatchOutcome
  | [] => .finished reloads 0
  | .changes touched :: rest =>
    watchLoop (if touched then reloads + 1 else reloads) rest
  | .readError :: _ => .finished reloads 1
  | .cancel :: _ => .cancelled reloads

/-- Reload count carried by an outcome. -/
def reloadsOf : WatchOutcome → Nat
  | .finished r _ => r
  | .cancelled r => r

/-! Helper lemmas evaluating `mkAppError` on the argument shapes used by the
code under study. -/

theorem mkAppError_domainError_default (m : String) :
    mkAppError .domainError m none none =
      ⟨.domainError, m, "DOMAIN_ERROR", []⟩ := rfl

theorem mkAppError_userNotFound_default (m : String) :
    mkAppError .userNotFoundError m none none =
      ⟨.userNotFoundError, m, "USER_NOT_FOUND_ERROR", []⟩ := rfl

theorem mkAppError_email (email : String) :
    mkAppError .validationError "Invalid email format"
      (some "INVALID_EMAIL_FORMAT") (some [("email", email)]) =
      ⟨.validationError, "Invalid email format", "INVALID_EMAIL_FORMAT",
        [("email", email)]⟩ := rfl

theorem mkAppError_name (name : String) :
    mkAppError .validationError "Name cannot be empty"
      (some "INVALID_NAME_FORMAT") (some [("name", name)]) =
      ⟨.validationError, "Name cannot be empty", "INVALID_NAME_FORMAT",
        [("name", name)]⟩ := rfl

/-- C6, counterexample: the derivation maps `UserNotFound` to
`USER_NOT_FOUND`, but re-applying it to that derived code inserts an
underscore before every following capital, so it is not idempotent. -/
theorem claim_C6_counterexample :
    defaultCode "UserNotFound" = "USER_NOT_FOUND" ∧
    defaultCode "USER_NOT_FOUND" = "U_S_E_R__N_O_T__F_O_U_N_D" ∧
    "U_S_E_R__N_O_T__F_O_U_N_D" ≠ "USER_NOT_FOUND" :=
  ⟨rfl, rfl, by decide⟩

/-- C6 (amended): the default error-code derivation (insert `_` before each
internal capital, then upper-case) matches the documented algorithm on
representative type names — here the documented example `UserNotFound` and
every class name of the taxonomy — but it is not idempotent on
already-derived codes. -/
theorem claim_C6 :
    defaultCode "UserNotFound" = "USER_NOT_FOUND" ∧
    defaultCode "AppError" = "APP_ERROR" ∧
    defaultCode "ResourceNotFoundError" = "RESOURCE_NOT_FOUND_ERROR" ∧
    defaultCode "ResourceConflictError" = "RESOURCE_CONFLICT_ERROR" ∧
    defaultCode "DomainError" = "DOMAIN_ERROR" ∧
    defaultCode "ValidationError" = "VALIDATION_ERROR" ∧
    defaultCode "BusinessRuleError" = "BUSINESS_RULE_ERROR" ∧
    defaultCode "InvalidOperationError" = "INVALID_OPERATION_ERROR" ∧
    defaultCode "AuthenticationError" = "AUTHENTICATION_ERROR" ∧
    defaultCode "AuthorizationError" = "AUTHORIZATION_ERROR" ∧
    defaultCode "UserNotFoundError" = "USER_NOT_FOUND_ERROR" ∧
    defaultCode "UserAlreadyExistsError" = "USER_ALREADY_EXISTS_ERROR" :=
  ⟨rfl, rfl, rfl, rfl, rfl, rfl, rfl, rfl, rfl, rfl, rfl, rfl⟩

/-- C7: the status mapper tests the error against the table in declared
order with `isinstance` (subtype) matching, first match wins: every
`ResourceNotFoundError` maps to 404, every `ResourceConflictError` to 409,
every `DomainError` (hence `ValidationError`, `BusinessRuleError`,
`InvalidOperationError`) to 400, `AuthenticationError` to 401,
`AuthorizationError` to 403, and a class matching none of the five entries
maps to 500. -/
theorem claim_C7 : ∀ c : ExcClass,
    (isinstance c .resourceNotFoundError = true →
      getStatusCodeForException c = 404) ∧
    (isinstance c .resourceConflictError = true →
      getStatusCodeForException c = 409) ∧
    (isinstance c .domainError = true → getStatusCodeForException c = 400) ∧
    (isinstance c .authenticationError = true →
      getStatusCodeForException c = 401) ∧
    (isinstance c .authorizationError = true →
      getStatusCodeForException c = 403) ∧
    (isinstance c .resourceNotFoundError = false →
      isinstance c .resourceConflictError = false →
      isinstance c .domainError = false →
      isinstance c .authenticationError = false →
      isinstance c .authorizationError = false →
      getStatusCodeForException c = 500) := by decide

/-- C7, witness: concrete classes exercising subtype matching (a
`UserNotFoundError` is a `ResourceNotFoundError`, a `ValidationError` is a
`DomainError`) and the 500 default for an unrelated class. -/
theorem claim_C7_witness :
    getStatusCodeForException .userNotFoundError = 404 ∧
    getStatusCodeForException .validationError = 400 ∧
    getStatusCodeForException .valueErrorClass = 500 :=
  ⟨(claim_C7 .userNotFoundError).1 rfl,
   (claim_C7 .validationError).2.2.1 rfl,
   (claim_C7 .valueErrorClass).2.2.2.2.2 rfl rfl rfl rfl rfl⟩

/-- C10: the boundary handler emits `details: null` when the error's details
mapping is empty, and the details object itself exactly when it is
non-empty. -/
theorem claim_C10 (e : AppErrorData) :
    (e.details = [] → (appExceptionHandler e).2.details = none) ∧
    (e.details ≠ [] → (appExceptionHandler e).2.details = some e.details) := by
  constructor
  · intro h
    simp [appExceptionHandler, h]
  · intro h
    simp [appExceptionHandler, h]

/-- C10, witness: a default-constructed error (empty details) yields
`details: null`; an error with one detail entry yields that mapping. -/
theorem claim_C10_witness :
    (appExceptionHandler (mkAppError .appError "boom" none none)).2.details =
      none ∧
    (appExceptionHandler (mkAppError .validationError "Invalid email format"
      (some "INVALID_EMAIL_FORMAT")
      (some [("email", "x")]))).2.details = some [("email", "x")] :=
  ⟨(claim_C10 (mkAppError .appError "boom" none none)).1 rfl,
   (claim_C10 (mkAppError .validationError "Invalid email format"
      (some "INVALID_EMAIL_FORMAT") (some [("email", "x")]))).2 (by decide)⟩

/-- C3, counterexample: on the event stream `[read error, change to .env]`
the loop terminates at the error with zero reloads — the change event after
the error is never processed — whereas the same stream without the error
performs one reload; so a read error does not leave the loop iterating. -/
theorem claim_C3_counterexample :
    watchLoop 0 [.readError, .changes true] = .finished 0 1 ∧
    reloadsOf (watchLoop 0 [.readError, .changes true]) = 0 ∧
    reloadsOf (watchLoop 0 [.changes true]) = 1 :=
  ⟨rfl, rfl, rfl⟩

/-- C3 (amended): a non-cancellation error raised while reading change
events is logged once and terminates the watch loop, leaving the remaining
events unprocessed; an explicit cancellation terminates the loop and is
re-raised rather than swallowed. -/
theorem claim_C3 (rest : List WatchEvent) (n : Nat) :
    watchLoop n (.readError :: rest) = .finished n 1 ∧
    watchLoop n (.cancel :: rest) = .cancelled n :=
  ⟨rfl, rfl⟩

/-- C9, amended part: the `total` field of a GET /users response equals the
length of the returned (paginated) user list, i.e. `min limit (count -
skip)` over the store — not the total number of users in the store. -/
theorem claim_C9 (state : RepoState) (skip limit : Nat) :
    (getUsersEndpoint state skip limit).total =
      ((getUsersEndpoint state skip limit).users).length ∧
    (getUsersEndpoint state skip limit).total =
      min limit (state.length - skip) := by
  constructor
  · rfl
  · simp [getUsersEndpoint, getAllUsers, repoGetAll]

/-- C1, counterexample: for the non-UUID string `"not-a-uuid"`,
`GetUserById` raises a `DomainError` whose code is the derived default
`DOMAIN_ERROR` — not `INVALID_USER_ID_FORMAT` — and whose details mapping
is empty rather than containing the offending value. -/
theorem claim_C1_counterexample :
    getUserById [] "not-a-uuid" =
      .error ⟨.domainError, "Invalid user ID format: not-a-uuid",
        "DOMAIN_ERROR", []⟩ ∧
    "DOMAIN_ERROR" ≠ "INVALID_USER_ID_FORMAT" :=
  ⟨rfl, by decide⟩

/-- C1 (amended): for every string that does not parse as a UUID,
`GetUserById` fails with a `DomainError` whose message names the offending
value, whose code is the derived default `DOMAIN_ERROR`, and whose details
mapping is empty. -/
theorem claim_C1 (state : RepoState) (s : String) (h : parseUUID s = none) :
    getUserById state s =
      .error ⟨.domainError, "Invalid user ID format: " ++ s,
        "DOMAIN_ERROR", []⟩ := by
  simp [getUserById, h, mkAppError_domainError_default]

/-- C1, witness: the amended theorem applied to the empty store and the
string `"not-a-uuid"`. -/
theorem claim_C1_witness :
    parseUUID "not-a-uuid" = none ∧
    getUserById [] "not-a-uuid" =
      .error ⟨.domainError, "Invalid user ID format: not-a-uuid",
        "DOMAIN_ERROR", []⟩ :=
  ⟨rfl, claim_C1 [] "not-a-uuid" rfl⟩

/-- C2, counterexample: a well-formed UUID absent from the store makes
`GetUserById` fail with a `UserNotFoundError` whose code is the derived
default `USER_NOT_FOUND_ERROR` — not `USER_NOT_FOUND` — and whose details
mapping is empty rather than containing the requested id. -/
theorem claim_C2_counterexample :
    getUserById [] "00000000-0000-0000-0000-000000000000" =
      .error ⟨.userNotFoundError,
        "User with ID 00000000-0000-0000-0000-000000000000 not found",
        "USER_NOT_FOUND_ERROR", []⟩ ∧
    "USER_NOT_FOUND_ERROR" ≠ "USER_NOT_FOUND" :=
  ⟨rfl, by decide⟩

/-- C2 (amended): for every well-formed UUID string whose user is absent
from the repository, `GetUserById` fails with a `UserNotFoundError` — a
subclass of `ResourceNotFoundError` — whose message names the requested id,
whose code is the derived default `USER_NOT_FOUND_ERROR`, and whose details
mapping is empty. -/
theorem claim_C2 (state : RepoState) (s u : String)
    (h1 : parseUUID s = some u) (h2 : repoGetById state u = none) :
    getUserById state s =
      .error ⟨.userNotFoundError, "User with ID " ++ s ++ " not found",
        "USER_NOT_FOUND_ERROR", []⟩ ∧
    isinstance .userNotFoundError .resourceNotFoundError = true := by
  refine ⟨?_, rfl⟩
  simp [getUserById, h1, h2, mkAppError_userNotFound_default]

/-- C2, witness: the amended theorem applied to the empty store and the nil
UUID. -/
theorem claim_C2_witness :
    parseUUID "00000000-0000-0000-0000-000000000000" =
      some "00000000-0000-0000-0000-000000000000" ∧
    repoGetById [] "00000000-0000-0000-0000-000000000000" = none ∧
    getUserById [] "00000000-0000-0000-0000-000000000000" =
      .error ⟨.userNotFoundError,
        "User with ID 00000000-0000-0000-0000-000000000000 not found",
        "USER_NOT_FOUND_ERROR", []⟩ :=
  ⟨rfl, rfl,
   (claim_C2 [] "00000000-0000-0000-0000-000000000000"
     "00000000-0000-0000-0000-000000000000" rfl rfl).1⟩

/-- Sample rows used as concrete inputs. -/
def sampleUser : UserEntity :=
  ⟨"alice@example.com", "Alice", "11111111-1111-1111-1111-111111111111",
    true, "2024-01-01T00:00:00+00:00", none⟩

/-- Second sample row, distinct id. -/
def sampleUserB : UserEntity :=
  ⟨"bob@example.com", "Bob", "22222222-2222-2222-2222-222222222222",
    true, "2024-01-02T00:00:00+00:00", none⟩

/-- C4, counterexample: updating an entity against an empty store fails with
a builtin `ValueError`, which is not a `ResourceNotFoundError` (nor any
taxonomy class). -/
theorem claim_C4_counterexample :
    repoUpdate [] sampleUser =
      .error (.valueError
        "User with ID 11111111-1111-1111-1111-111111111111 not found") ∧
    isResourceNotFound (.valueError
      "User with ID 11111111-1111-1111-1111-111111111111 not found") =
      false :=
  ⟨rfl, rfl⟩

/-- C4 (amended): for every user entity whose id matches no record in the
store, the adapter's update operation fails with a builtin `ValueError`
(message naming the id), not with a `ResourceNotFoundError`. -/
theorem claim_C4 (state : RepoState) (user : UserEntity)
    (h : repoGetById state user.id = none) :
    repoUpdate state user =
      .error (.valueError ("User with ID " ++ user.id ++ " not found")) ∧
    isResourceNotFound
      (.valueError ("User with ID " ++ user.id ++ " not found")) = false := by
  refine ⟨?_, rfl⟩
  unfold repoUpdate
  rw [h]

/-- C4, witness: the amended theorem applied to the empty store and a sample
entity. -/
theorem claim_C4_witness :
    repoGetById [] sampleUser.id = none ∧
    repoUpdate [] sampleUser =
      .error (.valueError
        ("User with ID " ++ sampleUser.id ++ " not found")) :=
  ⟨rfl, (claim_C4 [] sampleUser rfl).1⟩

/-- C9, counterexample: with two users in the store and `limit = 1`, the
response's `total` is 1 (the page length) while the store holds 2 users. -/
theorem claim_C9_counterexample :
    (getUsersEndpoint [sampleUser, sampleUserB] 0 1).total = 1 ∧
    ([sampleUser, sampleUserB] : RepoState).length = 2 ∧
    (1 : Nat) ≠ 2 :=
  ⟨rfl, rfl, by decide⟩

/-- C5, counterexample: deleting a well-formed but absent id fails with a
`UserNotFoundError` whose code is the derived default `USER_NOT_FOUND_ERROR`,
not `USER_NOT_FOUND`. -/
theorem claim_C5_counterexample :
    deleteUser [] "00000000-0000-0000-0000-000000000000" =
      .error ⟨.userNotFoundError,
        "User with ID 00000000-0000-0000-0000-000000000000 not found",
        "USER_NOT_FOUND_ERROR", []⟩ ∧
    "USER_NOT_FOUND_ERROR" ≠ "USER_NOT_FOUND" :=
  ⟨rfl, by decide⟩

/-- C5 (amended): `DeleteUser` performs the same identifier parsing as
`GetUserById` — a malformed identifier fails with the identical
`DomainError`; for a well-formed identifier it calls `delete` on the port,
fails with a `UserNotFoundError` coded `USER_NOT_FOUND_ERROR` (the derived
default) when the port returns false, and returns true (with the port's
resulting state) when the port returns true. -/
theorem claim_C5 (state : RepoState) (s : String) :
    (parseUUID s = none →
      deleteUser state s =
        .error ⟨.domainError, "Invalid user ID format: " ++ s,
          "DOMAIN_ERROR", []⟩ ∧
      getUserById state s =
        .error ⟨.domainError, "Invalid user ID format: " ++ s,
          "DOMAIN_ERROR", []⟩) ∧
    (∀ u, parseUUID s = some u →
      ((repoDelete state u).2 = false →
        deleteUser state s =
          .error ⟨.userNotFoundError, "User with ID " ++ s ++ " not found",
            "USER_NOT_FOUND_ERROR", []⟩) ∧
      ((repoDelete state u).2 = true →
        deleteUser state s = .ok ((repoDelete state u).1, true))) := by
  constructor
  · intro h
    constructor
    · simp [deleteUser, h, mkAppError_domainError_default]
    · simp [getUserById, h, mkAppError_domainError_default]
  · intro u h
    constructor
    · intro hd
      simp [deleteUser, h, hd, mkAppError_userNotFound_default]
    · intro hd
      simp [deleteUser, h, hd]

/-- C5, witness: the amended theorem applied at a malformed id, at an absent
well-formed id, and at an id present in a one-row store. -/
theorem claim_C5_witness :
    deleteUser [] "not-a-uuid" =
      .error ⟨.domainError, "Invalid user ID format: not-a-uuid",
        "DOMAIN_ERROR", []⟩ ∧
    deleteUser [] "00000000-0000-0000-0000-000000000000" =
      .error ⟨.userNotFoundError,
        "User with ID 00000000-0000-0000-0000-000000000000 not found",
        "USER_NOT_FOUND_ERROR", []⟩ ∧
    deleteUser [sampleUser] "11111111-1111-1111-1111-111111111111" =
      .ok ([], true) :=
  ⟨((claim_C5 [] "not-a-uuid").1 rfl).1,
   ((claim_C5 [] "00000000-0000-0000-0000-000000000000").2
     "00000000-0000-0000-0000-000000000000" rfl).1 rfl,
   ((claim_C5 [sampleUser] "11111111-1111-1111-1111-111111111111").2
     "11111111-1111-1111-1111-111111111111" rfl).2 rfl⟩

/-- C8: construction of a `User` succeeds with `updated_at = None` exactly
for an email containing `@` and a name non-empty after stripping; an
invalid email (empty or lacking `@`) fails first with a `ValidationError`
coded `INVALID_EMAIL_FORMAT` carrying the email in details; a valid email
with an invalid name (empty or whitespace-only) fails with a
`ValidationError` coded `INVALID_NAME_FORMAT` carrying the name in details;
and `ValidationError` is a `DomainError` subtype. -/
theorem claim_C8 (email name id createdAt : String) :
    (email.data.contains '@' = true → pyStrip name.data ≠ [] →
      mkUserEntity email name id createdAt =
        .ok ⟨email, name, id, true, createdAt, none⟩) ∧
    ((email = "" ∨ email.data.contains '@' = false) →
      mkUserEntity email name id createdAt =
        .error ⟨.validationError, "Invalid email format",
          "INVALID_EMAIL_FORMAT", [("email", email)]⟩) ∧
    (email.data.contains '@' = true → (name = "" ∨ pyStrip name.data = []) →
      mkUserEntity email name id createdAt =
        .error ⟨.validationError, "Name cannot be empty",
          "INVALID_NAME_FORMAT", [("name", name)]⟩) ∧
    isinstance .validationError .domainError = true := by
  refine ⟨?_, ?_, ?_, rfl⟩
  · intro h1 h2
    have h1m : '@' ∈ email.data := by simpa using h1
    have hne : ¬ email = "" := by
      intro he
      rw [he] at h1
      simp at h1
    have hn : ¬ name = "" := by
      intro he
      rw [he] at h2
      simp [pyStrip, pyWhitespace] at h2
    simp [mkUserEntity, validateEmail, validateName, hne, hn, h1m, h2]
  · intro h
    rcases h with he | hc
    · simp [mkUserEntity, validateEmail, he, mkAppError_email]
    · have hcm : '@' ∉ email.data := by simpa using hc
      simp [mkUserEntity, validateEmail, hcm, mkAppError_email]
  · intro h1 hn
    have h1m : '@' ∈ email.data := by simpa using h1
    have hne : ¬ email = "" := by
      intro he
      rw [he] at h1
      simp at h1
    rcases hn with he | hs
    · simp [mkUserEntity, validateEmail, validateName, hne, h1m, he,
        mkAppError_name]
    · simp [mkUserEntity, validateEmail, validateName, hne, h1m, hs,
        mkAppError_name]

/-- C8, witness: a valid pair constructs with `updated_at = None`; an email
without `@` fails with `INVALID_EMAIL_FORMAT`; a whitespace-only name fails
with `INVALID_NAME_FORMAT`. -/
theorem claim_C8_witness :
    mkUserEntity "alice@example.com" "Alice" "id-1" "t-1" =
      .ok ⟨"alice@example.com", "Alice", "id-1", true, "t-1", none⟩ ∧
    mkUserEntity "bob" "Bob" "id-2" "t-2" =
      .error ⟨.validationError, "Invalid email format",
        "INVALID_EMAIL_FORMAT", [("email", "bob")]⟩ ∧
    mkUserEntity "carol@example.com" "   " "id-3" "t-3" =
      .error ⟨.validationError, "Name cannot be empty",
        "INVALID_NAME_FORMAT", [("name", "   ")]⟩ :=
  ⟨(claim_C8 "alice@example.com" "Alice" "id-1" "t-1").1 (by decide)
     (by decide),
   (claim_C8 "bob" "Bob" "id-2" "t-2").2.1 (Or.inr (by decide)),
   (claim_C8 "carol@example.com" "   " "id-3" "t-3").2.2.1 (by decide)
     (Or.inr (by decide))⟩
